import Mathlib

/-!
Verification development for the credential proof lifecycle manager
(`spartan2-hyrax-mopro`).  The FFI layer `src/lib.rs` is embedded as
explicit state passing over a `Sys` state.  The backend prover/setup
modules of the `ecdsa_spartan2` crate are not part of the sources; the
definitions below that stand in for them carry doc comments beginning
`Modelled from the spec:`.
-/

namespace S2P

/-- The two circuit kinds of the protocol (`PrepareCircuit` / `ShowCircuit`). -/
inductive CKind
  | prepare
  | showC
deriving DecidableEq

/-- Modelled from the spec: a Hyrax commitment to a list of shared scalar
values under a list of blinding scalars; the spec requires `Commit` to be
deterministic, so a commitment is represented by the committed data itself. -/
structure Comm where
  values : List Nat
  blinds : List Nat
deriving DecidableEq

/-- An `Instance`: public values plus the shared-witness commitment. -/
structure Instance where
  pubs : List Nat
  comm_W_shared : Comm
deriving DecidableEq

/-- A `Witness`: the shared sub-vector of the satisfying assignment. -/
structure Witness where
  shared : List Nat
deriving DecidableEq

/-- A `Proof`: the commitment it carries, a nonce standing for the fresh
prover randomness of every non-shared component, and a validity bit the
backend verifier checks. -/
structure Proof where
  comm : Comm
  nonce : Nat
  valid : Bool
deriving DecidableEq

/-- A proving key, tagged by the circuit kind it was set up for. -/
structure ProvingKey where
  keyId : Nat
  kind : CKind
deriving DecidableEq

/-- A verifying key, tagged by the circuit kind it was set up for. -/
structure VerifyingKey where
  keyId : Nat
  kind : CKind
deriving DecidableEq

/-- A persisted artifact in the documents directory. -/
inductive Artifact
  | pk : ProvingKey → Artifact
  | vk : VerifyingKey → Artifact
  | inst : Instance → Artifact
  | wit : Witness → Artifact
  | prf : Proof → Artifact
  | blinds : List Nat → Artifact
deriving DecidableEq

/-- Backend events, recorded in order of invocation. -/
inductive BEv
  | setup : CKind → BEv
  | genBlinds : Nat → BEv
  | prove : CKind → BEv
  | reblind : CKind → BEv
  | verify : CKind → BEv
deriving DecidableEq

/-- Process / filesystem state: working directory, existing directories,
the artifact store, the input documents (each resolving to its list of
shared scalars), a randomness counter, a clock counter, and the backend
event trace. -/
structure Sys where
  cwd : String
  dirs : List String
  store : List (String × Artifact)
  docs : List (String × List Nat)
  rng : Nat
  clock : Nat
  events : List BEv
deriving DecidableEq

/-- The error enum `ZkProofError` of `src/lib.rs`. -/
inductive ZkProofError
  | FileNotFound : String → ZkProofError
  | ProofGenerationFailed : String → ZkProofError
  | VerificationFailed : String → ZkProofError
  | InvalidInput : String → ZkProofError
  | SetupRequired : String → ZkProofError
  | IoError : String → ZkProofError
deriving DecidableEq

/-- Outcome of a call: normal return, typed error, or a Rust panic. -/
inductive Outcome (α : Type)
  | ok : α → Outcome α
  | err : ZkProofError → Outcome α
  | panicked : Outcome α
deriving DecidableEq

/-- Association-list lookup keyed by strings (first binding wins, matching
overwrite-by-prepend in the store). -/
def assocLookup {α : Type} (p : String) : List (String × α) → Option α
  | [] => none
  | (q, a) :: rest => if q = p then some a else assocLookup p rest

/-- Persist an artifact (newest binding shadows older ones). -/
def saveArt (p : String) (a : Artifact) (s : Sys) : Sys :=
  { s with store := (p, a) :: s.store }

/-- Record a backend event. -/
def logEv (e : BEv) (s : Sys) : Sys :=
  { s with events := s.events ++ [e] }

/-- Draw one fresh random value. -/
def fresh (s : Sys) : Nat × Sys :=
  (s.rng, { s with rng := s.rng + 1 })

/-- Read the elapsed-milliseconds clock once. -/
def elapsedMs (s : Sys) : Nat × Sys :=
  (s.clock, { s with clock := s.clock + 1 })

/-- Sequence a call with a continuation, propagating errors and panics. -/
def bindO {α β : Type} (x : Outcome α × Sys) (f : α → Sys → Outcome β × Sys) :
    Outcome β × Sys :=
  match x with
  | (Outcome.ok a, s) => f a s
  | (Outcome.err e, s) => (Outcome.err e, s)
  | (Outcome.panicked, s) => (Outcome.panicked, s)

/-- Modelled from the spec: the artifact path constants of the absent
`ecdsa_spartan2::setup` module (one fixed constant per artifact type and
circuit kind). -/
def PREPARE_PROVING_KEY : String := "prepare_proving.key"

def PREPARE_VERIFYING_KEY : String := "prepare_verifying.key"

def PREPARE_INSTANCE : String := "prepare_instance.bin"

def PREPARE_WITNESS : String := "prepare_witness.bin"

def PREPARE_PROOF : String := "prepare_proof.bin"

def SHOW_PROVING_KEY : String := "show_proving.key"

def SHOW_VERIFYING_KEY : String := "show_verifying.key"

def SHOW_INSTANCE : String := "show_instance.bin"

def SHOW_WITNESS : String := "show_witness.bin"

def SHOW_PROOF : String := "show_proof.bin"

def SHARED_BLINDS : String := "shared_blinds.bin"

/-- The working-directory-relative default input document of a kind
(`circom/show_input.json` in `show_circuit.rs`). -/
def defaultInputPath : CKind → String
  | CKind.prepare => "circom/prepare_input.json"
  | CKind.showC => "circom/show_input.json"

/-- The packaged fallback input document of a kind (the
`CARGO_MANIFEST_DIR`-relative default of `show_circuit.rs`). -/
def fallbackInputPath : CKind → String
  | CKind.prepare => "packaged/prepare_default.json"
  | CKind.showC => "packaged/show_default.json"

/-- A circuit configuration: its kind and the optional explicit input
path handed to `PrepareCircuit::new` / `ShowCircuit::new`. -/
structure CircuitCfg where
  kind : CKind
  inputPath : Option String
deriving DecidableEq

def PrepareCircuit.new (ip : Option String) : CircuitCfg := ⟨CKind.prepare, ip⟩

def ShowCircuit.new (ip : Option String) : CircuitCfg := ⟨CKind.showC, ip⟩

def PrepareCircuit.default : CircuitCfg := ⟨CKind.prepare, none⟩

def ShowCircuit.default : CircuitCfg := ⟨CKind.showC, none⟩

/-- Input-document resolution.  The default-versus-fallback step embeds
`show_circuit.rs` (use the working-directory-relative default when it
exists, else the packaged fallback); the explicit-path step is
modelled from the spec, since the circuit version taking an explicit
input path is not among the sources: a supplied path is used directly. -/
def resolveInputPath (explicit : Option String) (k : CKind)
    (docs : List (String × List Nat)) : String :=
  match explicit with
  | some p => p
  | none =>
    if (assocLookup (defaultInputPath k) docs).isSome then defaultInputPath k
    else fallbackInputPath k

/-- The shared scalar values a circuit extracts from its resolved input
document (`deviceKeyX`/`deviceKeyY` and claim scalars); `none` when the
resolved document does not exist. -/
def circuitShared (c : CircuitCfg) (docs : List (String × List Nat)) :
    Option (List Nat) :=
  assocLookup (resolveInputPath c.inputPath c.kind docs) docs

/-- Modelled from the spec: the backend commitment primitive; committing
the same values under the same blinds is byte-identical (determinism the
linkage invariant depends on). -/
def commit (v b : List Nat) : Comm := ⟨v, b⟩

/-- Modelled from the spec: `generate_shared_blinds` of the absent
`ecdsa_spartan2::prover` module draws `count` blinding rows from a secure
source and persists the set, overwriting any previous set. -/
def gen_shared_blinds (path : String) (count : Nat) (s : Sys) : Sys :=
  let s1 := logEv (BEv.genBlinds count) s
  let bs := (List.range count).map (fun i => s1.rng + i)
  let s2 := { s1 with rng := s1.rng + count }
  saveArt path (Artifact.blinds bs) s2

/-- Modelled from the spec: the core of the absent backend proving
routine.  It synthesizes the circuit (aborting when the input document is
missing), reads the persisted shared blind set (aborting when absent),
commits the shared values under those blinds, draws fresh randomness for
the non-shared proof components, and persists Instance, Witness and
Proof. -/
def proveCore (c : CircuitCfg) (instPath witPath proofPath : String) (s : Sys) :
    Outcome Unit × Sys :=
  let s1 := logEv (BEv.prove c.kind) s
  match circuitShared c s1.docs with
  | none => (Outcome.panicked, s1)
  | some v =>
    match assocLookup SHARED_BLINDS s1.store with
    | some (Artifact.blinds b) =>
      let nonce := (fresh s1).1
      let s2 := (fresh s1).2
      let cm := commit v b
      let s3 := saveArt instPath (Artifact.inst ⟨[], cm⟩) s2
      let s4 := saveArt witPath (Artifact.wit ⟨v⟩) s3
      let s5 := saveArt proofPath (Artifact.prf ⟨cm, nonce, true⟩) s4
      (Outcome.ok (), s5)
    | _ => (Outcome.panicked, s1)

/-- Modelled from the spec: `prove_circuit` loads the proving key from its
path (aborting when absent — the backend crate cannot construct
`ZkProofError`) and runs the proving core. -/
def prove_circuit (c : CircuitCfg) (pkPath instPath witPath proofPath : String)
    (s : Sys) : Outcome Unit × Sys :=
  match assocLookup pkPath s.store with
  | some (Artifact.pk _) => proveCore c instPath witPath proofPath s
  | _ => (Outcome.panicked, s)

/-- Modelled from the spec: `prove_circuit_with_pk` takes the proving key
in memory and runs the proving core. -/
def prove_circuit_with_pk (c : CircuitCfg) (_pk : ProvingKey)
    (instPath witPath proofPath : String) (s : Sys) : Outcome Unit × Sys :=
  proveCore c instPath witPath proofPath s

/-- Modelled from the spec: the core of the absent reblinding routine.
It re-derives `comm_shared` deterministically from the same shared values
and the same blind set, draws fresh randomness for every non-shared proof
component, and persists the new Instance, Witness and Proof. -/
def reblindCore (c : CircuitCfg) (i : Instance) (w : Witness) (b : List Nat)
    (instPath witPath proofPath : String) (s : Sys) : Outcome Unit × Sys :=
  let s1 := logEv (BEv.reblind c.kind) s
  let nonce := (fresh s1).1
  let s2 := (fresh s1).2
  let cm := commit w.shared b
  let s3 := saveArt instPath (Artifact.inst ⟨i.pubs, cm⟩) s2
  let s4 := saveArt witPath (Artifact.wit w) s3
  let s5 := saveArt proofPath (Artifact.prf ⟨cm, nonce, true⟩) s4
  (Outcome.ok (), s5)

/-- Modelled from the spec: `reblind` loads proving key, Instance,
Witness and shared blind set from their paths (aborting when any is
absent) and runs the reblinding core. -/
def reblind (c : CircuitCfg) (pkPath instPath witPath proofPath blindsPath : String)
    (s : Sys) : Outcome Unit × Sys :=
  match assocLookup pkPath s.store, assocLookup instPath s.store,
      assocLookup witPath s.store, assocLookup blindsPath s.store with
  | some (Artifact.pk _), some (Artifact.inst i), some (Artifact.wit w),
      some (Artifact.blinds b) =>
    reblindCore c i w b instPath witPath proofPath s
  | _, _, _, _ => (Outcome.panicked, s)

/-- Modelled from the spec: `reblind_with_loaded_data` accepts the
already-loaded artifacts and runs the reblinding core. -/
def reblind_with_loaded_data (c : CircuitCfg) (_pk : ProvingKey) (i : Instance)
    (w : Witness) (b : List Nat) (instPath witPath proofPath : String) (s : Sys) :
    Outcome Unit × Sys :=
  reblindCore c i w b instPath witPath proofPath s

/-- Modelled from the spec: the backend verifier over loaded data; it
returns normally on acceptance and aborts on rejection (the backend crate
cannot construct `ZkProofError` and the call site discards no value). -/
def verify_circuit_with_loaded_data (p : Proof) (k : VerifyingKey) (s : Sys) :
    Outcome Unit × Sys :=
  let s1 := logEv (BEv.verify k.kind) s
  if p.valid then (Outcome.ok (), s1) else (Outcome.panicked, s1)

/-- Modelled from the spec: `verify_circuit` loads Proof and
VerifyingKey from their paths (aborting when absent) and runs the
verifier. -/
def verify_circuit (proofPath vkPath : String) (s : Sys) : Outcome Unit × Sys :=
  match assocLookup proofPath s.store, assocLookup vkPath s.store with
  | some (Artifact.prf p), some (Artifact.vk k) =>
    verify_circuit_with_loaded_data p k s
  | _, _ => (Outcome.panicked, s)

/-- Modelled from the spec: backend `Setup` without persistence, returning
fresh keys for the circuit kind. -/
def setup_circuit_keys_no_save (c : CircuitCfg) (s : Sys) :
    (ProvingKey × VerifyingKey) × Sys :=
  let s1 := logEv (BEv.setup c.kind) s
  let kid := (fresh s1).1
  let s2 := (fresh s1).2
  ((⟨kid, c.kind⟩, ⟨kid, c.kind⟩), s2)

/-- Modelled from the spec: persist a key pair. -/
def save_keys (pkPath vkPath : String) (pk : ProvingKey) (vk : VerifyingKey)
    (s : Sys) : Outcome Unit × Sys :=
  (Outcome.ok (), saveArt vkPath (Artifact.vk vk) (saveArt pkPath (Artifact.pk pk) s))

/-- Modelled from the spec: the Instance loader of the artifact store. -/
def load_instance (p : String) (s : Sys) : Option Instance :=
  match assocLookup p s.store with
  | some (Artifact.inst i) => some i
  | _ => none

/-- Modelled from the spec: the Witness loader of the artifact store. -/
def load_witness (p : String) (s : Sys) : Option Witness :=
  match assocLookup p s.store with
  | some (Artifact.wit w) => some w
  | _ => none

/-- Modelled from the spec: the Proof loader of the artifact store. -/
def load_proof (p : String) (s : Sys) : Option Proof :=
  match assocLookup p s.store with
  | some (Artifact.prf pr) => some pr
  | _ => none

/-- Modelled from the spec: the shared-blind-set loader of the artifact
store. -/
def load_shared_blinds (p : String) (s : Sys) : Option (List Nat) :=
  match assocLookup p s.store with
  | some (Artifact.blinds b) => some b
  | _ => none

/-- Serialized size of an artifact (stands for `fs::metadata(..).len()`). -/
def artifactSize : Artifact → Nat
  | Artifact.pk _ => 1048576
  | Artifact.vk _ => 65536
  | Artifact.inst i => 64 + 32 * i.pubs.length
  | Artifact.wit w => 32 + 32 * w.shared.length
  | Artifact.prf _ => 8192
  | Artifact.blinds b => 32 * b.length

/-- The hex rendering of a commitment (stands for the Debug format of
`instance.comm_W_shared`). -/
def commHex (c : Comm) : String :=
  "comm(" ++ toString c.values ++ "," ++ toString c.blinds ++ ")"

-- ==========================================================================
-- The FFI layer of src/lib.rs
-- ==========================================================================

/-- `restoreDir`: the trailing `let _ = std::env::set_current_dir(original)`
of `with_working_dir` — restoration is attempted and its failure ignored. -/
def restoreDir (d : String) (s : Sys) : Sys :=
  if s.dirs.contains d then { s with cwd := d } else s

/-- `with_working_dir` of src/lib.rs: record the current directory, switch
to the target (an `IoError` when that fails, before the body runs), run the
body, restore the original directory on normal return or error (a panic
unwinds without running the restoration statement). -/
def with_working_dir {α : Type} (path : String) (f : Sys → Outcome α × Sys)
    (s : Sys) : Outcome α × Sys :=
  let original_dir := s.cwd
  if s.dirs.contains path then
    match f { s with cwd := path } with
    | (Outcome.ok a, s2) => (Outcome.ok a, restoreDir original_dir s2)
    | (Outcome.err e, s2) => (Outcome.err e, restoreDir original_dir s2)
    | (Outcome.panicked, s2) => (Outcome.panicked, s2)
  else
    (Outcome.err (ZkProofError.IoError
      ("Failed to set working directory to " ++ path)), s)

/-- `ProofResult` of src/lib.rs. -/
structure ProofResult where
  prep_ms : Nat
  prove_ms : Nat
  total_ms : Nat
  proof_size_bytes : Nat
  comm_w_shared : String
deriving DecidableEq

/-- `get_proof_size` of src/lib.rs. -/
def get_proof_size (p : String) (s : Sys) : Outcome Nat × Sys :=
  match assocLookup p s.store with
  | some a => (Outcome.ok (artifactSize a), s)
  | none =>
    (Outcome.err (ZkProofError.FileNotFound
      ("Failed to get proof size from " ++ p)), s)

/-- `extract_comm_w_shared` of src/lib.rs. -/
def extract_comm_w_shared (instancePath : String) (s : Sys) :
    Outcome String × Sys :=
  match load_instance instancePath s with
  | some i => (Outcome.ok (commHex i.comm_W_shared), s)
  | none =>
    (Outcome.err (ZkProofError.FileNotFound
      ("Failed to load instance from " ++ instancePath)), s)

/-- `NUM_SHARED` of src/lib.rs: Hyrax batches all shared scalars into a
single commitment point, so the row count is one. -/
def NUM_SHARED : Nat := 1

/-- The body handed to `with_working_dir` by `generate_shared_blinds`. -/
def genBlindsBody (s0 : Sys) : Outcome String × Sys :=
  let s1 := gen_shared_blinds SHARED_BLINDS NUM_SHARED s0
  (Outcome.ok "Shared blinds generated successfully", s1)

/-- `generate_shared_blinds` of src/lib.rs. -/
def generate_shared_blinds (documents_path : String) (s : Sys) :
    Outcome String × Sys :=
  with_working_dir documents_path genBlindsBody s

/-- The common shape of the bodies handed to `with_working_dir` by
`prove_prepare` and `prove_show`: prove, time, then read proof size and
the commitment hex of the persisted Instance. -/
def proveOpBody (c : CircuitCfg) (pkPath instPath witPath proofPath : String)
    (s0 : Sys) : Outcome ProofResult × Sys :=
  bindO (prove_circuit c pkPath instPath witPath proofPath s0) (fun _ s1 =>
    let total_ms := (elapsedMs s1).1
    let s2 := (elapsedMs s1).2
    bindO (get_proof_size proofPath s2) (fun sz s3 =>
      bindO (extract_comm_w_shared instPath s3) (fun ch s4 =>
        (Outcome.ok ⟨0, total_ms, total_ms, sz, ch⟩, s4))))

/-- `prove_prepare` of src/lib.rs. -/
def prove_prepare (documents_path : String) (input_path : Option String)
    (s : Sys) : Outcome ProofResult × Sys :=
  with_working_dir documents_path
    (proveOpBody (PrepareCircuit.new input_path) PREPARE_PROVING_KEY
      PREPARE_INSTANCE PREPARE_WITNESS PREPARE_PROOF) s

/-- `prove_show` of src/lib.rs. -/
def prove_show (documents_path : String) (input_path : Option String)
    (s : Sys) : Outcome ProofResult × Sys :=
  with_working_dir documents_path
    (proveOpBody (ShowCircuit.new input_path) SHOW_PROVING_KEY
      SHOW_INSTANCE SHOW_WITNESS SHOW_PROOF) s

/-- The common shape of the bodies handed to `with_working_dir` by
`reblind_prepare` and `reblind_show`. -/
def reblindOpBody (c : CircuitCfg) (pkPath instPath witPath proofPath : String)
    (s0 : Sys) : Outcome ProofResult × Sys :=
  bindO (reblind c pkPath instPath witPath proofPath SHARED_BLINDS s0)
    (fun _ s1 =>
      let elapsed_ms := (elapsedMs s1).1
      let s2 := (elapsedMs s1).2
      bindO (get_proof_size proofPath s2) (fun sz s3 =>
        bindO (extract_comm_w_shared instPath s3) (fun ch s4 =>
          (Outcome.ok ⟨0, elapsed_ms, elapsed_ms, sz, ch⟩, s4))))

/-- `reblind_prepare` of src/lib.rs. -/
def reblind_prepare (documents_path : String) (s : Sys) :
    Outcome ProofResult × Sys :=
  with_working_dir documents_path
    (reblindOpBody (PrepareCircuit.new none) PREPARE_PROVING_KEY
      PREPARE_INSTANCE PREPARE_WITNESS PREPARE_PROOF) s

/-- `reblind_show` of src/lib.rs. -/
def reblind_show (documents_path : String) (s : Sys) :
    Outcome ProofResult × Sys :=
  with_working_dir documents_path
    (reblindOpBody (ShowCircuit.new none) SHOW_PROVING_KEY
      SHOW_INSTANCE SHOW_WITNESS SHOW_PROOF) s

/-- The common shape of the bodies handed to `with_working_dir` by
`verify_prepare` and `verify_show`: run the backend verifier, then return
`true`; no error mapping is applied to the verifier call. -/
def verifyOpBody (proofPath vkPath : String) (s0 : Sys) : Outcome Bool × Sys :=
  bindO (verify_circuit proofPath vkPath s0) (fun _ s1 => (Outcome.ok true, s1))

/-- `verify_prepare` of src/lib.rs. -/
def verify_prepare (documents_path : String) (s : Sys) : Outcome Bool × Sys :=
  with_working_dir documents_path
    (verifyOpBody PREPARE_PROOF PREPARE_VERIFYING_KEY) s

/-- `verify_show` of src/lib.rs. -/
def verify_show (documents_path : String) (s : Sys) : Outcome Bool × Sys :=
  with_working_dir documents_path
    (verifyOpBody SHOW_PROOF SHOW_VERIFYING_KEY) s

/-- The body handed to `with_working_dir` by `get_comm_w_shared`. -/
def getCommBody (circuit_type : String) (s0 : Sys) : Outcome String × Sys :=
  if circuit_type = "prepare" then extract_comm_w_shared PREPARE_INSTANCE s0
  else if circuit_type = "show" then extract_comm_w_shared SHOW_INSTANCE s0
  else
    (Outcome.err (ZkProofError.InvalidInput
      ("Invalid circuit_type " ++ circuit_type ++ ". Must be prepare or show")),
      s0)

/-- `get_comm_w_shared` of src/lib.rs. -/
def get_comm_w_shared (documents_path circuit_type : String) (s : Sys) :
    Outcome String × Sys :=
  with_working_dir documents_path (getCommBody circuit_type) s

/-- `BenchmarkResults` of src/lib.rs. -/
structure BenchmarkResults where
  prepare_setup_ms : Nat
  show_setup_ms : Nat
  generate_blinds_ms : Nat
  prove_prepare_ms : Nat
  reblind_prepare_ms : Nat
  prove_show_ms : Nat
  reblind_show_ms : Nat
  verify_prepare_ms : Nat
  verify_show_ms : Nat
  prepare_proving_key_bytes : Nat
  prepare_verifying_key_bytes : Nat
  show_proving_key_bytes : Nat
  show_verifying_key_bytes : Nat
  prepare_proof_bytes : Nat
  show_proof_bytes : Nat
  prepare_witness_bytes : Nat
  show_witness_bytes : Nat
deriving DecidableEq

/-- The body of `run_complete_benchmark` of src/lib.rs (the closure handed
to `with_working_dir`): the nine pipeline steps in source order, then the
size measurements. -/
def benchBody (input_path : Option String) (s0 : Sys) :
    Outcome BenchmarkResults × Sys :=
  -- Step 1: setup Prepare circuit
  let kp := (setup_circuit_keys_no_save (PrepareCircuit.new input_path) s0).1
  let sA := (setup_circuit_keys_no_save (PrepareCircuit.new input_path) s0).2
  let prepare_pk := kp.1
  let prepare_vk := kp.2
  let prepare_setup_ms := (elapsedMs sA).1
  let sB := (elapsedMs sA).2
  bindO (save_keys PREPARE_PROVING_KEY PREPARE_VERIFYING_KEY prepare_pk
      prepare_vk sB) (fun _ sC =>
  -- Step 2: setup Show circuit
  let ks := (setup_circuit_keys_no_save (ShowCircuit.new input_path) sC).1
  let sD := (setup_circuit_keys_no_save (ShowCircuit.new input_path) sC).2
  let show_pk := ks.1
  let show_vk := ks.2
  let show_setup_ms := (elapsedMs sD).1
  let sE := (elapsedMs sD).2
  bindO (save_keys SHOW_PROVING_KEY SHOW_VERIFYING_KEY show_pk show_vk sE)
    (fun _ sF =>
  -- Step 3: generate shared blinds
  let sG := gen_shared_blinds SHARED_BLINDS NUM_SHARED sF
  let generate_blinds_ms := (elapsedMs sG).1
  let sH := (elapsedMs sG).2
  -- Step 4: prove Prepare circuit
  bindO (prove_circuit_with_pk (PrepareCircuit.new input_path) prepare_pk
      PREPARE_INSTANCE PREPARE_WITNESS PREPARE_PROOF sH) (fun _ sI =>
  let prove_prepare_ms := (elapsedMs sI).1
  let sJ := (elapsedMs sI).2
  -- Step 5: reblind Prepare (loads outside the measured interval)
  match load_instance PREPARE_INSTANCE sJ with
  | none => (Outcome.err (ZkProofError.FileNotFound
      "Failed to load prepare instance"), sJ)
  | some prepInst =>
  match load_witness PREPARE_WITNESS sJ with
  | none => (Outcome.err (ZkProofError.FileNotFound
      "Failed to load prepare witness"), sJ)
  | some prepWit =>
  match load_shared_blinds SHARED_BLINDS sJ with
  | none => (Outcome.err (ZkProofError.FileNotFound
      "Failed to load shared blinds"), sJ)
  | some shared_blinds =>
  bindO (reblind_with_loaded_data PrepareCircuit.default prepare_pk prepInst
      prepWit shared_blinds PREPARE_INSTANCE PREPARE_WITNESS PREPARE_PROOF sJ)
    (fun _ sK =>
  let reblind_prepare_ms := (elapsedMs sK).1
  let sL := (elapsedMs sK).2
  -- Step 6: prove Show circuit
  bindO (prove_circuit_with_pk (ShowCircuit.new input_path) show_pk
      SHOW_INSTANCE SHOW_WITNESS SHOW_PROOF sL) (fun _ sM =>
  let prove_show_ms := (elapsedMs sM).1
  let sN := (elapsedMs sM).2
  -- Step 7: reblind Show (reuses the loaded shared blinds)
  match load_instance SHOW_INSTANCE sN with
  | none => (Outcome.err (ZkProofError.FileNotFound
      "Failed to load show instance"), sN)
  | some showInst =>
  match load_witness SHOW_WITNESS sN with
  | none => (Outcome.err (ZkProofError.FileNotFound
      "Failed to load show witness"), sN)
  | some showWit =>
  bindO (reblind_with_loaded_data ShowCircuit.default show_pk showInst showWit
      shared_blinds SHOW_INSTANCE SHOW_WITNESS SHOW_PROOF sN) (fun _ sO =>
  let reblind_show_ms := (elapsedMs sO).1
  let sP := (elapsedMs sO).2
  -- Step 8: verify Prepare (proof loaded outside the measured interval)
  match load_proof PREPARE_PROOF sP with
  | none => (Outcome.err (ZkProofError.FileNotFound
      "Failed to load prepare proof"), sP)
  | some prepProof =>
  bindO (verify_circuit_with_loaded_data prepProof prepare_vk sP) (fun _ sQ =>
  let verify_prepare_ms := (elapsedMs sQ).1
  let sR := (elapsedMs sQ).2
  -- Step 9: verify Show
  match load_proof SHOW_PROOF sR with
  | none => (Outcome.err (ZkProofError.FileNotFound
      "Failed to load show proof"), sR)
  | some showProof =>
  bindO (verify_circuit_with_loaded_data showProof show_vk sR) (fun _ sS =>
  let verify_show_ms := (elapsedMs sS).1
  let sT := (elapsedMs sS).2
  -- Size measurements
  bindO (get_proof_size PREPARE_PROVING_KEY sT) (fun z1 sU =>
  bindO (get_proof_size PREPARE_VERIFYING_KEY sU) (fun z2 sV =>
  bindO (get_proof_size SHOW_PROVING_KEY sV) (fun z3 sW =>
  bindO (get_proof_size SHOW_VERIFYING_KEY sW) (fun z4 sX =>
  bindO (get_proof_size PREPARE_PROOF sX) (fun z5 sY =>
  bindO (get_proof_size SHOW_PROOF sY) (fun z6 sZ =>
  bindO (get_proof_size PREPARE_WITNESS sZ) (fun z7 sZ1 =>
  bindO (get_proof_size SHOW_WITNESS sZ1) (fun z8 sZ2 =>
  (Outcome.ok ⟨prepare_setup_ms, show_setup_ms, generate_blinds_ms,
      prove_prepare_ms, reblind_prepare_ms, prove_show_ms, reblind_show_ms,
      verify_prepare_ms, verify_show_ms, z1, z2, z3, z4, z5, z6, z7, z8⟩,
    sZ2)))))))))))))))))

/-- `run_complete_benchmark` of src/lib.rs. -/
def run_complete_benchmark (documents_path : String) (input_path : Option String)
    (s : Sys) : Outcome BenchmarkResults × Sys :=
  with_working_dir documents_path (benchBody input_path) s

-- ==========================================================================
-- Derived observations and concrete states used in the statements
-- ==========================================================================

/-- The canonical nine-step backend trace of `run_complete_benchmark`. -/
def canonical9 : List BEv :=
  [BEv.setup CKind.prepare, BEv.setup CKind.showC, BEv.genBlinds 1,
   BEv.prove CKind.prepare, BEv.reblind CKind.prepare, BEv.prove CKind.showC,
   BEv.reblind CKind.showC, BEv.verify CKind.prepare, BEv.verify CKind.showC]

/-- Whether an outcome is a `VerificationFailed` typed error. -/
def isVerificationFailedO {α : Type} : Outcome α → Bool
  | Outcome.err (ZkProofError.VerificationFailed _) => true
  | _ => false

/-- Whether an outcome is a `SetupRequired` typed error. -/
def isSetupRequiredO {α : Type} : Outcome α → Bool
  | Outcome.err (ZkProofError.SetupRequired _) => true
  | _ => false

/-- The `comm_W_shared` of the Instance persisted at a path, when one is
there. -/
def instCommAt (p : String) (s : Sys) : Option Comm :=
  match load_instance p s with
  | some i => some i.comm_W_shared
  | none => none

/-- Extract the value of a successful outcome, with a fallback. -/
def outOk {α : Type} (o : Outcome α) (d : α) : α :=
  match o with
  | Outcome.ok a => a
  | _ => d

/-- Input documents for both kinds carrying the same shared scalars. -/
def demoDocs : List (String × List Nat) :=
  [(defaultInputPath CKind.prepare, [7, 8]), (defaultInputPath CKind.showC, [7, 8])]

/-- A state holding both proving keys and both input documents. -/
def demoSys : Sys :=
  { cwd := "docs", dirs := ["docs"],
    store := [(PREPARE_PROVING_KEY, Artifact.pk ⟨1, CKind.prepare⟩),
              (SHOW_PROVING_KEY, Artifact.pk ⟨2, CKind.showC⟩)],
    docs := demoDocs, rng := 0, clock := 0, events := [] }

/-- A state persisting invalid proofs together with both verifying keys. -/
def rejectSys : Sys :=
  { cwd := "docs", dirs := ["docs"],
    store := [(PREPARE_PROOF, Artifact.prf ⟨⟨[], []⟩, 0, false⟩),
              (PREPARE_VERIFYING_KEY, Artifact.vk ⟨1, CKind.prepare⟩),
              (SHOW_PROOF, Artifact.prf ⟨⟨[], []⟩, 1, false⟩),
              (SHOW_VERIFYING_KEY, Artifact.vk ⟨2, CKind.showC⟩)],
    docs := [], rng := 0, clock := 0, events := [] }

/-- A state with input documents present but no proving key persisted. -/
def noPkSys : Sys :=
  { cwd := "docs", dirs := ["docs"], store := [], docs := demoDocs,
    rng := 0, clock := 0, events := [] }

/-- A state with an empty artifact store (the benchmark creates
everything it needs). -/
def emptySys : Sys :=
  { cwd := "docs", dirs := ["docs"], store := [], docs := demoDocs,
    rng := 0, clock := 0, events := [] }

/-- A state holding every artifact the prove and reblind operations
consume, with the persisted Instance commitment matching the persisted
Witness and blind set. -/
def readySys : Sys :=
  { cwd := "docs", dirs := ["docs"],
    store := [(PREPARE_PROVING_KEY, Artifact.pk ⟨1, CKind.prepare⟩),
              (SHOW_PROVING_KEY, Artifact.pk ⟨2, CKind.showC⟩),
              (SHARED_BLINDS, Artifact.blinds [9]),
              (PREPARE_INSTANCE, Artifact.inst ⟨[], commit [5] [9]⟩),
              (PREPARE_WITNESS, Artifact.wit ⟨[5]⟩),
              (SHOW_INSTANCE, Artifact.inst ⟨[], commit [5] [9]⟩),
              (SHOW_WITNESS, Artifact.wit ⟨[5]⟩)],
    docs := demoDocs, rng := 0, clock := 0, events := [] }

/-- The state after generating shared blinds from `demoSys`. -/
def c1s1 : Sys := (generate_shared_blinds "docs" demoSys).2

/-- The result of proving Prepare after the blind generation. -/
def c1r1 : ProofResult := outOk (prove_prepare "docs" none c1s1).1 ⟨0, 0, 0, 0, ""⟩

/-- The state after proving Prepare. -/
def c1s2 : Sys := (prove_prepare "docs" none c1s1).2

/-- The result of proving Show after proving Prepare. -/
def c1r2 : ProofResult := outOk (prove_show "docs" none c1s2).1 ⟨0, 0, 0, 0, ""⟩

/-- The state after proving Show. -/
def c1s3 : Sys := (prove_show "docs" none c1s2).2

/-- A zero benchmark record used as an `outOk` fallback. -/
def br0 : BenchmarkResults := ⟨0, 0, 0, 0, 0, 0, 0, 0, 0, 0, 0, 0, 0, 0, 0, 0, 0⟩

/-- The benchmark record of a concrete successful pipeline run. -/
def benchR : BenchmarkResults := outOk (run_complete_benchmark "docs" none emptySys).1 br0

/-- The state after a concrete successful pipeline run. -/
def benchS2 : Sys := (run_complete_benchmark "docs" none emptySys).2

/-- Concrete results of each proving and reblinding operation on `readySys`. -/
def c10r1 : ProofResult := outOk (prove_prepare "docs" none readySys).1 ⟨1, 1, 0, 0, ""⟩

def c10r2 : ProofResult := outOk (prove_show "docs" none readySys).1 ⟨1, 1, 0, 0, ""⟩

def c10r3 : ProofResult := outOk (reblind_prepare "docs" readySys).1 ⟨1, 1, 0, 0, ""⟩

def c10r4 : ProofResult := outOk (reblind_show "docs" readySys).1 ⟨1, 1, 0, 0, ""⟩

-- ==========================================================================
-- Helper lemmas
-- ==========================================================================

theorem restoreDir_events (d : String) (s : Sys) :
    (restoreDir d s).events = s.events := by
  unfold restoreDir
  split <;> rfl

theorem restoreDir_store (d : String) (s : Sys) :
    (restoreDir d s).store = s.store := by
  unfold restoreDir
  split <;> rfl

theorem restoreDir_docs (d : String) (s : Sys) :
    (restoreDir d s).docs = s.docs := by
  unfold restoreDir
  split <;> rfl

theorem restoreDir_rng (d : String) (s : Sys) :
    (restoreDir d s).rng = s.rng := by
  unfold restoreDir
  split <;> rfl

theorem restoreDir_dirs (d : String) (s : Sys) :
    (restoreDir d s).dirs = s.dirs := by
  unfold restoreDir
  split <;> rfl

theorem with_working_dir_outcome {α : Type} (path : String)
    (f : Sys → Outcome α × Sys) (s : Sys) :
    (with_working_dir path f s).1 = (f { s with cwd := path }).1 ∨
    (with_working_dir path f s).1 =
      Outcome.err (ZkProofError.IoError
        ("Failed to set working directory to " ++ path)) := by
  unfold with_working_dir
  by_cases hp : s.dirs.contains path = true
  · rw [if_pos hp]
    rcases hf : f { s with cwd := path } with ⟨o, s3⟩
    cases o <;> simp [hf]
  · rw [if_neg hp]
    exact Or.inr rfl

theorem verify_circuit_shape (pp vp : String) (s : Sys) :
    (verify_circuit pp vp s).1 = Outcome.ok () ∨
    (verify_circuit pp vp s).1 = Outcome.panicked := by
  unfold verify_circuit verify_circuit_with_loaded_data
  split
  · dsimp only
    split <;> simp
  · simp

theorem prove_circuit_shape (c : CircuitCfg) (pk ip wp pp : String) (s : Sys) :
    (prove_circuit c pk ip wp pp s).1 = Outcome.ok () ∨
    (prove_circuit c pk ip wp pp s).1 = Outcome.panicked := by
  unfold prove_circuit proveCore
  split
  · dsimp only
    split
    · simp
    · split <;> simp
  · simp

theorem get_proof_size_shape (p : String) (s : Sys) :
    (∃ n, (get_proof_size p s).1 = Outcome.ok n) ∨
    (∃ m, (get_proof_size p s).1 = Outcome.err (ZkProofError.FileNotFound m)) := by
  unfold get_proof_size
  split
  · exact Or.inl ⟨_, rfl⟩
  · exact Or.inr ⟨_, rfl⟩

theorem extract_comm_shape (p : String) (s : Sys) :
    (∃ c, (extract_comm_w_shared p s).1 = Outcome.ok c) ∨
    (∃ m, (extract_comm_w_shared p s).1 =
      Outcome.err (ZkProofError.FileNotFound m)) := by
  unfold extract_comm_w_shared
  split
  · exact Or.inl ⟨_, rfl⟩
  · exact Or.inr ⟨_, rfl⟩

theorem verifyOpBody_shape (pp vp : String) (t : Sys) :
    (verifyOpBody pp vp t).1 = Outcome.ok true ∨
    (verifyOpBody pp vp t).1 = Outcome.panicked := by
  unfold verifyOpBody
  have hs := verify_circuit_shape pp vp t
  rcases hv : verify_circuit pp vp t with ⟨o, s2⟩
  rw [hv] at hs
  simp at hs
  rcases hs with h | h <;> subst h <;> simp [bindO, hv]

theorem proveOpBody_no_sr (c : CircuitCfg) (pk ip wp pp : String) (t : Sys) :
    isSetupRequiredO (proveOpBody c pk ip wp pp t).1 = false := by
  unfold proveOpBody
  have hs := prove_circuit_shape c pk ip wp pp t
  rcases hp : prove_circuit c pk ip wp pp t with ⟨o, s1⟩
  rw [hp] at hs
  simp at hs
  rcases hs with h | h
  · subst h
    simp only [bindO]
    have hgs := get_proof_size_shape pp (elapsedMs s1).2
    rcases hg : get_proof_size pp (elapsedMs s1).2 with ⟨og, s3⟩
    rw [hg] at hgs
    rcases hgs with ⟨n, hn⟩ | ⟨m, hm⟩
    · simp at hn
      subst hn
      simp only [bindO]
      have hes := extract_comm_shape ip s3
      rcases he : extract_comm_w_shared ip s3 with ⟨oe, s4⟩
      rw [he] at hes
      rcases hes with ⟨ch, hc⟩ | ⟨m, hm⟩
      · simp at hc
        subst hc
        simp [bindO, isSetupRequiredO]
      · simp at hm
        subst hm
        simp [bindO, isSetupRequiredO]
    · simp at hm
      subst hm
      simp [bindO, isSetupRequiredO]
  · subst h
    simp [bindO, isSetupRequiredO]

theorem wwd_pred_false {α : Type} (P : Outcome α → Bool)
    (path : String) (f : Sys → Outcome α × Sys) (s : Sys)
    (hIo : ∀ m, P (Outcome.err (ZkProofError.IoError m)) = false)
    (hf : ∀ t, P ((f t).1) = false) :
    P ((with_working_dir path f s).1) = false := by
  rcases with_working_dir_outcome path f s with h | h
  · rw [h]; exact hf _
  · rw [h]; exact hIo _

theorem benchBody_trace (ip : Option String) (t : Sys) :
    (∃ k, ((benchBody ip t).2).events = t.events ++ canonical9.take k) ∧
    (∀ r, (benchBody ip t).1 = Outcome.ok r →
      ((benchBody ip t).2).events = t.events ++ canonical9) := by
  rcases hc1 : circuitShared (PrepareCircuit.new ip) t.docs with _ | v1 <;>
    simp only [PrepareCircuit.new] at hc1
  · constructor
    · refine ⟨4, ?_⟩
      simp +decide [benchBody, bindO, setup_circuit_keys_no_save, save_keys,
        gen_shared_blinds, proveCore, prove_circuit_with_pk, saveArt, logEv,
        PrepareCircuit.new, ShowCircuit.new, PrepareCircuit.default, ShowCircuit.default,
        fresh, elapsedMs, assocLookup, NUM_SHARED, canonical9, hc1,
        PREPARE_PROVING_KEY, PREPARE_VERIFYING_KEY, SHOW_PROVING_KEY,
        SHOW_VERIFYING_KEY, SHARED_BLINDS]
    · intro r h
      simp +decide [benchBody, bindO, setup_circuit_keys_no_save, save_keys,
        gen_shared_blinds, proveCore, prove_circuit_with_pk, saveArt, logEv,
        PrepareCircuit.new, ShowCircuit.new, PrepareCircuit.default, ShowCircuit.default,
        fresh, elapsedMs, assocLookup, NUM_SHARED, hc1,
        PREPARE_PROVING_KEY, PREPARE_VERIFYING_KEY, SHOW_PROVING_KEY,
        SHOW_VERIFYING_KEY, SHARED_BLINDS] at h
  · rcases hc2 : circuitShared (ShowCircuit.new ip) t.docs with _ | v2 <;>
      simp only [ShowCircuit.new] at hc2
    · constructor
      · refine ⟨6, ?_⟩
        simp +decide [benchBody, bindO, setup_circuit_keys_no_save, save_keys,
          gen_shared_blinds, proveCore, prove_circuit_with_pk,
          PrepareCircuit.new, ShowCircuit.new, PrepareCircuit.default, ShowCircuit.default,
          reblind_with_loaded_data, reblindCore, load_instance, load_witness,
          load_shared_blinds, saveArt, logEv, fresh, elapsedMs, assocLookup,
          NUM_SHARED, canonical9, hc1, hc2, commit,
          PREPARE_PROVING_KEY, PREPARE_VERIFYING_KEY, SHOW_PROVING_KEY,
          SHOW_VERIFYING_KEY, SHARED_BLINDS, PREPARE_INSTANCE,
          PREPARE_WITNESS, PREPARE_PROOF, SHOW_INSTANCE, SHOW_WITNESS,
          SHOW_PROOF]
      · intro r h
        simp +decide [benchBody, bindO, setup_circuit_keys_no_save, save_keys,
          gen_shared_blinds, proveCore, prove_circuit_with_pk,
          PrepareCircuit.new, ShowCircuit.new, PrepareCircuit.default, ShowCircuit.default,
          reblind_with_loaded_data, reblindCore, load_instance, load_witness,
          load_shared_blinds, saveArt, logEv, fresh, elapsedMs, assocLookup,
          NUM_SHARED, hc1, hc2, commit,
          PREPARE_PROVING_KEY, PREPARE_VERIFYING_KEY, SHOW_PROVING_KEY,
          SHOW_VERIFYING_KEY, SHARED_BLINDS, PREPARE_INSTANCE,
          PREPARE_WITNESS, PREPARE_PROOF, SHOW_INSTANCE, SHOW_WITNESS,
          SHOW_PROOF] at h
    · constructor
      · refine ⟨9, ?_⟩
        simp +decide [benchBody, bindO, setup_circuit_keys_no_save, save_keys,
          gen_shared_blinds, proveCore, prove_circuit_with_pk,
          PrepareCircuit.new, ShowCircuit.new, PrepareCircuit.default, ShowCircuit.default,
          reblind_with_loaded_data, reblindCore, verify_circuit_with_loaded_data,
          load_instance, load_witness, load_shared_blinds, load_proof,
          get_proof_size, saveArt, logEv, fresh, elapsedMs, assocLookup,
          NUM_SHARED, canonical9, hc1, hc2, commit, artifactSize,
          PREPARE_PROVING_KEY, PREPARE_VERIFYING_KEY, SHOW_PROVING_KEY,
          SHOW_VERIFYING_KEY, SHARED_BLINDS, PREPARE_INSTANCE,
          PREPARE_WITNESS, PREPARE_PROOF, SHOW_INSTANCE, SHOW_WITNESS,
          SHOW_PROOF]
      · intro r h
        simp +decide [benchBody, bindO, setup_circuit_keys_no_save, save_keys,
          gen_shared_blinds, proveCore, prove_circuit_with_pk,
          PrepareCircuit.new, ShowCircuit.new, PrepareCircuit.default, ShowCircuit.default,
          reblind_with_loaded_data, reblindCore, verify_circuit_with_loaded_data,
          load_instance, load_witness, load_shared_blinds, load_proof,
          get_proof_size, saveArt, logEv, fresh, elapsedMs, assocLookup,
          NUM_SHARED, canonical9, hc1, hc2, commit, artifactSize,
          PREPARE_PROVING_KEY, PREPARE_VERIFYING_KEY, SHOW_PROVING_KEY,
          SHOW_VERIFYING_KEY, SHARED_BLINDS, PREPARE_INSTANCE,
          PREPARE_WITNESS, PREPARE_PROOF, SHOW_INSTANCE, SHOW_WITNESS,
          SHOW_PROOF]

theorem run_bench_trace (dp : String) (ip : Option String) (s : Sys) :
    ∃ k, ((run_complete_benchmark dp ip s).2).events = s.events ++ canonical9.take k := by
  unfold run_complete_benchmark with_working_dir
  by_cases hp : s.dirs.contains dp = true
  · rw [if_pos hp]
    rcases hb : benchBody ip { s with cwd := dp } with ⟨o, sb⟩
    have ht := (benchBody_trace ip { s with cwd := dp }).1
    rw [hb] at ht
    obtain ⟨k, hk⟩ := ht
    refine ⟨k, ?_⟩
    cases o <;> simp [restoreDir_events] <;> simpa using hk
  · rw [if_neg hp]
    exact ⟨0, by simp⟩

theorem run_bench_trace_ok (dp : String) (ip : Option String) (s : Sys)
    (r : BenchmarkResults) (s2 : Sys)
    (h : run_complete_benchmark dp ip s = (Outcome.ok r, s2)) :
    s2.events = s.events ++ canonical9 := by
  unfold run_complete_benchmark with_working_dir at h
  by_cases hp : s.dirs.contains dp = true
  · rw [if_pos hp] at h
    rcases hb : benchBody ip { s with cwd := dp } with ⟨o, sb⟩
    rw [hb] at h
    cases o with
    | ok a =>
      simp only [Prod.mk.injEq] at h
      have ht := (benchBody_trace ip { s with cwd := dp }).2 a (by rw [hb])
      rw [hb] at ht
      rw [← h.2, restoreDir_events]
      simpa using ht
    | err e => simp at h
    | panicked => simp at h
  · rw [if_neg hp] at h
    simp at h

theorem get_proof_size_state (p : String) (s : Sys) : (get_proof_size p s).2 = s := by
  unfold get_proof_size
  split <;> rfl

theorem extract_comm_state (p : String) (s : Sys) :
    (extract_comm_w_shared p s).2 = s := by
  unfold extract_comm_w_shared
  split <;> rfl

theorem generate_shared_blinds_ok_inv (dp : String) (s : Sys) (m : String)
    (s1 : Sys) (h : generate_shared_blinds dp s = (Outcome.ok m, s1)) :
    s1.store = (SHARED_BLINDS, Artifact.blinds [s.rng]) :: s.store ∧
    s1.docs = s.docs ∧ s1.rng = s.rng + 1 ∧ s1.dirs = s.dirs := by
  unfold generate_shared_blinds with_working_dir genBlindsBody at h
  by_cases hp : s.dirs.contains dp = true
  · rw [if_pos hp] at h
    simp only [Prod.mk.injEq] at h
    obtain ⟨-, hs⟩ := h
    rw [← hs]
    refine ⟨?_, ?_, ?_, ?_⟩ <;>
      simp [restoreDir_store, restoreDir_docs, restoreDir_rng, restoreDir_dirs,
        gen_shared_blinds, saveArt, logEv, NUM_SHARED, List.range_succ]
  · rw [if_neg hp] at h
    simp at h

theorem prove_circuit_ok_inv (c : CircuitCfg) (pk ip wp pp : String) (s : Sys)
    (u : Unit) (s2 : Sys)
    (h : prove_circuit c pk ip wp pp s = (Outcome.ok u, s2)) :
    ∃ v b, circuitShared c s.docs = some v ∧
      assocLookup SHARED_BLINDS s.store = some (Artifact.blinds b) ∧
      s2.store = (pp, Artifact.prf ⟨commit v b, s.rng, true⟩) ::
        (wp, Artifact.wit ⟨v⟩) ::
        (ip, Artifact.inst ⟨[], commit v b⟩) :: s.store ∧
      s2.docs = s.docs ∧ s2.rng = s.rng + 1 ∧ s2.dirs = s.dirs ∧
      s2.events = s.events ++ [BEv.prove c.kind] := by
  unfold prove_circuit proveCore at h
  simp only [logEv, fresh, saveArt] at h
  rcases hpk : assocLookup pk s.store with _ | a
  · rw [hpk] at h
    simp at h
  · rw [hpk] at h
    cases a with
    | pk k =>
      rcases hcs : circuitShared c s.docs with _ | v
      · rw [hcs] at h
        simp at h
      · rw [hcs] at h
        rcases hbl : assocLookup SHARED_BLINDS s.store with _ | a2
        · rw [hbl] at h
          simp at h
        · rw [hbl] at h
          cases a2 with
          | blinds b =>
            simp only [Prod.mk.injEq] at h
            obtain ⟨-, hs⟩ := h
            refine ⟨v, b, rfl, rfl, ?_, ?_, ?_, ?_, ?_⟩ <;> rw [← hs]
          | pk k2 => simp at h
          | vk k2 => simp at h
          | inst i2 => simp at h
          | wit w2 => simp at h
          | prf p2 => simp at h
    | vk k => simp at h
    | inst i => simp at h
    | wit w => simp at h
    | prf p => simp at h
    | blinds b => simp at h

theorem proveOpBody_ok_inv (c : CircuitCfg) (pkP iP wP prP : String) (t : Sys)
    (r : ProofResult) (s4 : Sys)
    (h : proveOpBody c pkP iP wP prP t = (Outcome.ok r, s4)) :
    ∃ v b, circuitShared c t.docs = some v ∧
      assocLookup SHARED_BLINDS t.store = some (Artifact.blinds b) ∧
      s4.store = (prP, Artifact.prf ⟨commit v b, t.rng, true⟩) ::
        (wP, Artifact.wit ⟨v⟩) :: (iP, Artifact.inst ⟨[], commit v b⟩) :: t.store ∧
      s4.docs = t.docs ∧ s4.rng = t.rng + 1 ∧ s4.dirs = t.dirs := by
  unfold proveOpBody at h
  rcases hp : prove_circuit c pkP iP wP prP t with ⟨o, s1⟩
  rw [hp] at h
  cases o with
  | ok a =>
    simp only [bindO] at h
    rcases hg : get_proof_size prP (elapsedMs s1).2 with ⟨og, s3⟩
    rw [hg] at h
    have hg2 : s3 = (elapsedMs s1).2 := by
      have hq := get_proof_size_state prP (elapsedMs s1).2
      rw [hg] at hq
      exact hq
    cases og with
    | ok n =>
      simp only [bindO] at h
      rcases he : extract_comm_w_shared iP s3 with ⟨oe, s5⟩
      rw [he] at h
      have he2 : s5 = s3 := by
        have hq := extract_comm_state iP s3
        rw [he] at hq
        exact hq
      cases oe with
      | ok ch =>
        simp only [bindO, Prod.mk.injEq] at h
        obtain ⟨-, hs⟩ := h
        obtain ⟨v, b, h1, h2, h3, h4, h5, h6, h7⟩ :=
          prove_circuit_ok_inv _ _ _ _ _ _ _ _ hp
        refine ⟨v, b, h1, h2, ?_, ?_, ?_, ?_⟩ <;>
          rw [← hs, he2, hg2] <;> simp [elapsedMs] <;> assumption
      | err e => simp [bindO] at h
      | panicked => simp [bindO] at h
    | err e => simp [bindO] at h
    | panicked => simp [bindO] at h
  | err e => simp [bindO] at h
  | panicked => simp [bindO] at h

theorem wwd_prove_ok_inv (dp : String) (c : CircuitCfg)
    (pkP iP wP prP : String) (s : Sys) (r : ProofResult) (s2 : Sys)
    (h : with_working_dir dp (proveOpBody c pkP iP wP prP) s = (Outcome.ok r, s2)) :
    ∃ v b, circuitShared c s.docs = some v ∧
      assocLookup SHARED_BLINDS s.store = some (Artifact.blinds b) ∧
      s2.store = (prP, Artifact.prf ⟨commit v b, s.rng, true⟩) ::
        (wP, Artifact.wit ⟨v⟩) :: (iP, Artifact.inst ⟨[], commit v b⟩) :: s.store ∧
      s2.docs = s.docs ∧ s2.rng = s.rng + 1 ∧ s2.dirs = s.dirs := by
  unfold with_working_dir at h
  by_cases hp : s.dirs.contains dp = true
  · rw [if_pos hp] at h
    rcases hb : proveOpBody c pkP iP wP prP { s with cwd := dp } with ⟨o, sb⟩
    rw [hb] at h
    cases o with
    | ok a =>
      simp only [Prod.mk.injEq] at h
      obtain ⟨-, hs⟩ := h
      obtain ⟨v, b, h1, h2, h3, h4, h5, h6⟩ := proveOpBody_ok_inv _ _ _ _ _ _ _ _ hb
      refine ⟨v, b, h1, h2, ?_, ?_, ?_, ?_⟩ <;> rw [← hs] <;>
        simp only [restoreDir_store, restoreDir_docs, restoreDir_rng, restoreDir_dirs] <;>
        first
          | exact h3
          | exact h4
          | exact h5
          | exact h6
    | err e => simp at h
    | panicked => simp at h
  · rw [if_neg hp] at h
    simp at h

theorem reblind_prepare_run (dp : String) (s : Sys) (k : ProvingKey)
    (i : Instance) (w : Witness) (b : List Nat)
    (hdp : s.dirs.contains dp = true)
    (hpk : assocLookup PREPARE_PROVING_KEY s.store = some (Artifact.pk k))
    (hinst : assocLookup PREPARE_INSTANCE s.store = some (Artifact.inst i))
    (hwit : assocLookup PREPARE_WITNESS s.store = some (Artifact.wit w))
    (hbl : assocLookup SHARED_BLINDS s.store = some (Artifact.blinds b)) :
    (reblind_prepare dp s).1 =
      Outcome.ok ⟨0, s.clock, s.clock, 8192, commHex (commit w.shared b)⟩ ∧
    ((reblind_prepare dp s).2).store =
      (PREPARE_PROOF, Artifact.prf ⟨commit w.shared b, s.rng, true⟩) ::
      (PREPARE_WITNESS, Artifact.wit w) ::
      (PREPARE_INSTANCE, Artifact.inst ⟨i.pubs, commit w.shared b⟩) :: s.store ∧
    ((reblind_prepare dp s).2).rng = s.rng + 1 ∧
    ((reblind_prepare dp s).2).dirs = s.dirs ∧
    ((reblind_prepare dp s).2).docs = s.docs := by
  unfold reblind_prepare with_working_dir
  rw [if_pos hdp]
  unfold reblindOpBody reblind
  dsimp only
  rw [hpk, hinst, hwit, hbl]
  refine ⟨?_, ?_, ?_, ?_, ?_⟩ <;>
    simp +decide [reblindCore, logEv, fresh, saveArt, elapsedMs, bindO,
      get_proof_size, artifactSize, extract_comm_w_shared, load_instance,
      assocLookup, restoreDir_store, restoreDir_rng, restoreDir_dirs,
      restoreDir_docs, PREPARE_PROOF, PREPARE_WITNESS, PREPARE_INSTANCE]

theorem reblind_shape (c : CircuitCfg) (pk ip wp pp bp : String) (s : Sys) :
    (reblind c pk ip wp pp bp s).1 = Outcome.ok () ∨
    (reblind c pk ip wp pp bp s).1 = Outcome.panicked := by
  unfold reblind reblindCore
  split
  · dsimp only
    simp
  · simp

theorem proveOpBody_ok_timing (c : CircuitCfg) (pkP iP wP prP : String)
    (t : Sys) (r : ProofResult) (s4 : Sys)
    (h : proveOpBody c pkP iP wP prP t = (Outcome.ok r, s4)) :
    r.prep_ms = 0 ∧ r.prove_ms = r.total_ms := by
  unfold proveOpBody at h
  rcases hp : prove_circuit c pkP iP wP prP t with ⟨o, s1⟩
  rw [hp] at h
  cases o with
  | ok a =>
    simp only [bindO] at h
    rcases hg : get_proof_size prP (elapsedMs s1).2 with ⟨og, s3⟩
    rw [hg] at h
    cases og with
    | ok n =>
      simp only [bindO] at h
      rcases he : extract_comm_w_shared iP s3 with ⟨oe, s5⟩
      rw [he] at h
      cases oe with
      | ok ch =>
        simp only [bindO, Prod.mk.injEq] at h
        obtain ⟨hr, -⟩ := h
        rw [← Outcome.ok.inj hr]
        exact ⟨rfl, rfl⟩
      | err e => simp [bindO] at h
      | panicked => simp [bindO] at h
    | err e => simp [bindO] at h
    | panicked => simp [bindO] at h
  | err e => simp [bindO] at h
  | panicked => simp [bindO] at h

theorem reblindOpBody_ok_timing (c : CircuitCfg) (pkP iP wP prP : String)
    (t : Sys) (r : ProofResult) (s4 : Sys)
    (h : reblindOpBody c pkP iP wP prP t = (Outcome.ok r, s4)) :
    r.prep_ms = 0 ∧ r.prove_ms = r.total_ms := by
  unfold reblindOpBody at h
  rcases hp : reblind c pkP iP wP prP SHARED_BLINDS t with ⟨o, s1⟩
  rw [hp] at h
  cases o with
  | ok a =>
    simp only [bindO] at h
    rcases hg : get_proof_size prP (elapsedMs s1).2 with ⟨og, s3⟩
    rw [hg] at h
    cases og with
    | ok n =>
      simp only [bindO] at h
      rcases he : extract_comm_w_shared iP s3 with ⟨oe, s5⟩
      rw [he] at h
      cases oe with
      | ok ch =>
        simp only [bindO, Prod.mk.injEq] at h
        obtain ⟨hr, -⟩ := h
        rw [← Outcome.ok.inj hr]
        exact ⟨rfl, rfl⟩
      | err e => simp [bindO] at h
      | panicked => simp [bindO] at h
    | err e => simp [bindO] at h
    | panicked => simp [bindO] at h
  | err e => simp [bindO] at h
  | panicked => simp [bindO] at h

theorem wwd_ok_of_outcome {α : Type} (path : String) (f : Sys → Outcome α × Sys)
    (s : Sys) (a : α) (h : (with_working_dir path f s).1 = Outcome.ok a) :
    (f { s with cwd := path }).1 = Outcome.ok a := by
  rcases with_working_dir_outcome path f s with hw | hw
  · rw [← hw]; exact h
  · rw [hw] at h; simp at h

-- ==========================================================================
-- Claims
-- ==========================================================================

/-- Claim C1: after GenerateSharedBlinds, then Prove(Prepare), then
Prove(Show) with no regeneration of blinds in between, and with both
circuits extracting the same underlying shared witness values, the
`comm_shared` of the persisted Prepare Instance equals the `comm_shared`
of the persisted Show Instance bit-for-bit. -/
theorem claim_C1 (dp : String) (ip1 ip2 : Option String) (s : Sys) (m : String)
    (s1 : Sys) (r1 : ProofResult) (s2 : Sys) (r2 : ProofResult) (s3 : Sys)
    (h1 : generate_shared_blinds dp s = (Outcome.ok m, s1))
    (h2 : prove_prepare dp ip1 s1 = (Outcome.ok r1, s2))
    (h3 : prove_show dp ip2 s2 = (Outcome.ok r2, s3))
    (hsh : circuitShared (PrepareCircuit.new ip1) s.docs =
      circuitShared (ShowCircuit.new ip2) s.docs) :
    instCommAt PREPARE_INSTANCE s3 = instCommAt SHOW_INSTANCE s3 ∧
    (instCommAt PREPARE_INSTANCE s3).isSome = true := by
  obtain ⟨hst1, hdoc1, hrng1, hdirs1⟩ := generate_shared_blinds_ok_inv _ _ _ _ h1
  unfold prove_prepare at h2
  obtain ⟨v1, b1, hc1, hb1, hst2, hdoc2, hrng2, hdirs2⟩ :=
    wwd_prove_ok_inv _ _ _ _ _ _ _ _ _ h2
  unfold prove_show at h3
  obtain ⟨v2, b2, hc2, hb2, hst3, hdoc3, hrng3, hdirs3⟩ :=
    wwd_prove_ok_inv _ _ _ _ _ _ _ _ _ h3
  rw [hst1] at hb1
  simp +decide [assocLookup] at hb1
  rw [hst2, hst1] at hb2
  simp +decide [assocLookup, PREPARE_PROOF, PREPARE_WITNESS, PREPARE_INSTANCE,
    SHARED_BLINDS] at hb2
  rw [hdoc1] at hc1
  rw [hdoc2, hdoc1] at hc2
  rw [hsh] at hc1
  rw [hc2] at hc1
  have hv : v2 = v1 := Option.some.inj hc1
  constructor
  · simp +decide [instCommAt, load_instance, assocLookup, hst3, hst2,
      PREPARE_PROOF, PREPARE_WITNESS, PREPARE_INSTANCE, SHOW_PROOF,
      SHOW_WITNESS, SHOW_INSTANCE, hv, ← hb1, ← hb2]
  · simp +decide [instCommAt, load_instance, assocLookup, hst3, hst2,
      PREPARE_PROOF, PREPARE_WITNESS, PREPARE_INSTANCE, SHOW_PROOF,
      SHOW_WITNESS, SHOW_INSTANCE]

/-- Witness for C1: a concrete blind-generation, Prepare-prove, Show-prove
run on `demoSys` whose two persisted Instances carry equal commitments. -/
theorem claim_C1_witness :
    instCommAt PREPARE_INSTANCE c1s3 = instCommAt SHOW_INSTANCE c1s3 ∧
    (instCommAt PREPARE_INSTANCE c1s3).isSome = true :=
  claim_C1 "docs" none none demoSys "Shared blinds generated successfully"
    c1s1 c1r1 c1s2 c1r2 c1s3 (by decide) (by decide) (by decide) (by decide)

/-- Claim C2: reblinding the Prepare proof twice against the same stored
Witness/Instance succeeds both times, persists two byte-distinct Proofs,
and both resulting Instances carry `comm_shared` equal to the pre-reblind
Instance's `comm_shared`. -/
theorem claim_C2 (dp : String) (s : Sys) (k : ProvingKey) (i : Instance)
    (w : Witness) (b : List Nat)
    (hdp : s.dirs.contains dp = true)
    (hpk : assocLookup PREPARE_PROVING_KEY s.store = some (Artifact.pk k))
    (hinst : assocLookup PREPARE_INSTANCE s.store = some (Artifact.inst i))
    (hwit : assocLookup PREPARE_WITNESS s.store = some (Artifact.wit w))
    (hbl : assocLookup SHARED_BLINDS s.store = some (Artifact.blinds b))
    (hlink : i.comm_W_shared = commit w.shared b) :
    (∃ r1, (reblind_prepare dp s).1 = Outcome.ok r1) ∧
    (∃ r2, (reblind_prepare dp ((reblind_prepare dp s).2)).1 = Outcome.ok r2) ∧
    (load_proof PREPARE_PROOF ((reblind_prepare dp s).2)).isSome = true ∧
    (load_proof PREPARE_PROOF
      ((reblind_prepare dp ((reblind_prepare dp s).2)).2)).isSome = true ∧
    load_proof PREPARE_PROOF ((reblind_prepare dp s).2) ≠
      load_proof PREPARE_PROOF ((reblind_prepare dp ((reblind_prepare dp s).2)).2) ∧
    instCommAt PREPARE_INSTANCE ((reblind_prepare dp s).2) =
      some i.comm_W_shared ∧
    instCommAt PREPARE_INSTANCE
      ((reblind_prepare dp ((reblind_prepare dp s).2)).2) =
      some i.comm_W_shared := by
  obtain ⟨ho1, hst1, hrng1, hdirs1, hdoc1⟩ :=
    reblind_prepare_run dp s k i w b hdp hpk hinst hwit hbl
  have hdp1 : ((reblind_prepare dp s).2).dirs.contains dp = true := by
    rw [hdirs1]; exact hdp
  have hpk1 : assocLookup PREPARE_PROVING_KEY ((reblind_prepare dp s).2).store =
      some (Artifact.pk k) := by
    rw [hst1]
    simp +decide [assocLookup, PREPARE_PROOF, PREPARE_WITNESS,
      PREPARE_INSTANCE, PREPARE_PROVING_KEY]
    exact hpk
  have hinst1 : assocLookup PREPARE_INSTANCE ((reblind_prepare dp s).2).store =
      some (Artifact.inst ⟨i.pubs, commit w.shared b⟩) := by
    rw [hst1]
    simp +decide [assocLookup, PREPARE_PROOF, PREPARE_WITNESS, PREPARE_INSTANCE]
  have hwit1 : assocLookup PREPARE_WITNESS ((reblind_prepare dp s).2).store =
      some (Artifact.wit w) := by
    rw [hst1]
    simp +decide [assocLookup, PREPARE_PROOF, PREPARE_WITNESS]
  have hbl1 : assocLookup SHARED_BLINDS ((reblind_prepare dp s).2).store =
      some (Artifact.blinds b) := by
    rw [hst1]
    simp +decide [assocLookup, PREPARE_PROOF, PREPARE_WITNESS,
      PREPARE_INSTANCE, SHARED_BLINDS]
    exact hbl
  obtain ⟨ho2, hst2, hrng2, hdirs2, hdoc2⟩ :=
    reblind_prepare_run dp ((reblind_prepare dp s).2) k
      ⟨i.pubs, commit w.shared b⟩ w b hdp1 hpk1 hinst1 hwit1 hbl1
  refine ⟨⟨_, ho1⟩, ⟨_, ho2⟩, ?_, ?_, ?_, ?_, ?_⟩
  · simp +decide [load_proof, assocLookup, hst1, PREPARE_PROOF]
  · simp +decide [load_proof, assocLookup, hst2, PREPARE_PROOF]
  · simp +decide [load_proof, assocLookup, hst1, hst2, hrng1, PREPARE_PROOF]
  · simp +decide [instCommAt, load_instance, assocLookup, hst1, hlink,
      PREPARE_PROOF, PREPARE_WITNESS, PREPARE_INSTANCE]
  · simp +decide [instCommAt, load_instance, assocLookup, hst2, hlink,
      PREPARE_PROOF, PREPARE_WITNESS, PREPARE_INSTANCE]

/-- Witness for C2: a concrete double reblind on `readySys`. -/
theorem claim_C2_witness :
    (∃ r1, (reblind_prepare "docs" readySys).1 = Outcome.ok r1) ∧
    (∃ r2, (reblind_prepare "docs"
      ((reblind_prepare "docs" readySys).2)).1 = Outcome.ok r2) ∧
    (load_proof PREPARE_PROOF ((reblind_prepare "docs" readySys).2)).isSome = true ∧
    (load_proof PREPARE_PROOF
      ((reblind_prepare "docs" ((reblind_prepare "docs" readySys).2)).2)).isSome = true ∧
    load_proof PREPARE_PROOF ((reblind_prepare "docs" readySys).2) ≠
      load_proof PREPARE_PROOF
        ((reblind_prepare "docs" ((reblind_prepare "docs" readySys).2)).2) ∧
    instCommAt PREPARE_INSTANCE ((reblind_prepare "docs" readySys).2) =
      some (Instance.mk [] (commit [5] [9])).comm_W_shared ∧
    instCommAt PREPARE_INSTANCE
      ((reblind_prepare "docs" ((reblind_prepare "docs" readySys).2)).2) =
      some (Instance.mk [] (commit [5] [9])).comm_W_shared :=
  claim_C2 "docs" readySys ⟨1, CKind.prepare⟩ ⟨[], commit [5] [9]⟩ ⟨[5]⟩ [9]
    (by decide) (by decide) (by decide) (by decide) (by decide) (by decide)

/-- Claim C3: the verify operations can never return a
`VerificationFailed` typed error — on a persisted proof the backend
rejects, `verify_prepare` aborts (a crash), so a backend rejection is not
surfaced as the claimed typed error. -/
theorem claim_C3 :
    (∀ dp s, isVerificationFailedO (verify_prepare dp s).1 = false ∧
      isVerificationFailedO (verify_show dp s).1 = false) ∧
    (verify_prepare "docs" rejectSys).1 = Outcome.panicked ∧
    (verify_show "docs" rejectSys).1 = Outcome.panicked := by
  refine ⟨fun dp s => ⟨?_, ?_⟩, by decide, by decide⟩
  · unfold verify_prepare
    refine wwd_pred_false _ _ _ _ (fun m => rfl) (fun t => ?_)
    rcases verifyOpBody_shape PREPARE_PROOF PREPARE_VERIFYING_KEY t with h | h <;>
      rw [h] <;> rfl
  · unfold verify_show
    refine wwd_pred_false _ _ _ _ (fun m => rfl) (fun t => ?_)
    rcases verifyOpBody_shape SHOW_PROOF SHOW_VERIFYING_KEY t with h | h <;>
      rw [h] <;> rfl

/-- Claim C4: when the working-directory switch fails the call returns the
`IoError` immediately with the state untouched (the body never runs), and
on ok or err exits of a body that leaves the directory tree unchanged the
working directory is restored to its pre-call value. -/
theorem claim_C4 {α : Type} (path : String) (f : Sys → Outcome α × Sys) (s : Sys)
    (hb : ∀ t, ((f t).2).dirs = t.dirs)
    (hcwd : s.dirs.contains s.cwd = true) :
    (s.dirs.contains path = false →
      with_working_dir path f s =
        (Outcome.err (ZkProofError.IoError
          ("Failed to set working directory to " ++ path)), s))
    ∧ (∀ a s2, with_working_dir path f s = (Outcome.ok a, s2) → s2.cwd = s.cwd)
    ∧ (∀ e s2, with_working_dir path f s = (Outcome.err e, s2) → s2.cwd = s.cwd) := by
  refine ⟨?_, ?_, ?_⟩
  · intro hno
    unfold with_working_dir
    rw [if_neg (by simpa using hno)]
  · intro a s2 h
    unfold with_working_dir at h
    by_cases hp : s.dirs.contains path = true
    · rw [if_pos hp] at h
      rcases hf : f { s with cwd := path } with ⟨o, s3⟩
      rw [hf] at h
      cases o with
      | ok b =>
        simp only [Prod.mk.injEq] at h
        have hs2 : s2 = restoreDir s.cwd s3 := h.2.symm
        have h3 : s3.dirs = s.dirs := by
          have hq := hb { s with cwd := path }
          rw [hf] at hq
          simpa using hq
        rw [hs2]
        unfold restoreDir
        rw [h3, if_pos hcwd]
      | err e => simp at h
      | panicked => simp at h
    · rw [if_neg hp] at h
      simp only [Prod.mk.injEq] at h
      exact absurd h.1 (by simp)
  · intro e s2 h
    unfold with_working_dir at h
    by_cases hp : s.dirs.contains path = true
    · rw [if_pos hp] at h
      rcases hf : f { s with cwd := path } with ⟨o, s3⟩
      rw [hf] at h
      cases o with
      | ok b => simp at h
      | err e2 =>
        simp only [Prod.mk.injEq] at h
        have hs2 : s2 = restoreDir s.cwd s3 := h.2.symm
        have h3 : s3.dirs = s.dirs := by
          have hq := hb { s with cwd := path }
          rw [hf] at hq
          simpa using hq
        rw [hs2]
        unfold restoreDir
        rw [h3, if_pos hcwd]
      | panicked => simp at h
    · rw [if_neg hp] at h
      simp only [Prod.mk.injEq] at h
      rw [← h.2]

/-- Witness for C4: a nonexistent target directory on `demoSys` with a
trivial body. -/
theorem claim_C4_witness :
    (demoSys.dirs.contains "missing" = false →
      with_working_dir "missing" (fun t => (Outcome.ok (0 : Nat), t)) demoSys =
        (Outcome.err (ZkProofError.IoError
          ("Failed to set working directory to " ++ "missing")), demoSys))
    ∧ (∀ a s2, with_working_dir "missing" (fun t => (Outcome.ok (0 : Nat), t))
        demoSys = (Outcome.ok a, s2) → s2.cwd = demoSys.cwd)
    ∧ (∀ e s2, with_working_dir "missing" (fun t => (Outcome.ok (0 : Nat), t))
        demoSys = (Outcome.err e, s2) → s2.cwd = demoSys.cwd) :=
  claim_C4 "missing" (fun t => (Outcome.ok (0 : Nat), t)) demoSys
    (fun _ => rfl) (by decide)

/-- Claim C5: the prove operations can never return a `SetupRequired`
typed error — with no persisted ProvingKey, `prove_prepare` and
`prove_show` abort inside the backend proving routine (a crash) instead
of failing with the claimed typed error. -/
theorem claim_C5 :
    (∀ dp ip s, isSetupRequiredO (prove_prepare dp ip s).1 = false ∧
      isSetupRequiredO (prove_show dp ip s).1 = false) ∧
    (prove_prepare "docs" none noPkSys).1 = Outcome.panicked ∧
    (prove_show "docs" none noPkSys).1 = Outcome.panicked := by
  refine ⟨fun dp ip s => ⟨?_, ?_⟩, by decide, by decide⟩
  · unfold prove_prepare
    exact wwd_pred_false _ _ _ _ (fun m => rfl) (fun t => proveOpBody_no_sr _ _ _ _ _ t)
  · unfold prove_show
    exact wwd_pred_false _ _ _ _ (fun m => rfl) (fun t => proveOpBody_no_sr _ _ _ _ _ t)

/-- Claim C6: a successful `run_complete_benchmark` emits exactly the
nine backend steps in the canonical order, and every invocation
(successful or not) emits an initial segment of that canonical order, so
blind generation always comes after both setups and before any prove. -/
theorem claim_C6 :
    (∀ dp ip s r s2, run_complete_benchmark dp ip s = (Outcome.ok r, s2) →
      s2.events = s.events ++ canonical9) ∧
    (∀ dp ip s, ∃ k, ((run_complete_benchmark dp ip s).2).events =
      s.events ++ canonical9.take k) :=
  ⟨fun dp ip s r s2 h => run_bench_trace_ok dp ip s r s2 h,
   fun dp ip s => run_bench_trace dp ip s⟩

/-- Witness for C6: a concrete successful benchmark run on `emptySys`
whose trace is exactly the canonical nine steps. -/
theorem claim_C6_witness :
    benchS2.events = emptySys.events ++ canonical9 :=
  claim_C6.1 "docs" none emptySys benchR benchS2 (by decide)

/-- Claim C7: input-document resolution uses the explicit path argument
when one is supplied, else the working-directory-relative default when it
exists, else the packaged fallback. -/
theorem claim_C7 (k : CKind) (ipo : Option String)
    (docs : List (String × List Nat)) :
    (∀ p, ipo = some p → resolveInputPath ipo k docs = p) ∧
    (ipo = none → (assocLookup (defaultInputPath k) docs).isSome = true →
      resolveInputPath ipo k docs = defaultInputPath k) ∧
    (ipo = none → (assocLookup (defaultInputPath k) docs).isSome = false →
      resolveInputPath ipo k docs = fallbackInputPath k) := by
  refine ⟨?_, ?_, ?_⟩
  · intro p h
    subst h
    rfl
  · intro h he
    subst h
    unfold resolveInputPath
    rw [if_pos he]
  · intro h he
    subst h
    unfold resolveInputPath
    rw [if_neg (by simp [he])]

/-- Witness for C7: concrete resolutions hitting all three branches. -/
theorem claim_C7_witness :
    resolveInputPath (some "x.json") CKind.prepare [] = "x.json" ∧
    resolveInputPath none CKind.showC demoDocs = defaultInputPath CKind.showC ∧
    resolveInputPath none CKind.prepare [] = fallbackInputPath CKind.prepare :=
  ⟨(claim_C7 CKind.prepare (some "x.json") []).1 "x.json" rfl,
   (claim_C7 CKind.showC none demoDocs).2.1 rfl (by decide),
   (claim_C7 CKind.prepare none []).2.2 rfl (by decide)⟩

/-- Claim C8: `get_comm_w_shared` rejects every selector other than
`prepare` and `show` with `InvalidInput`; for a valid selector it returns
the hex of the persisted Instance's `comm_W_shared`, and fails with
`FileNotFound` when that Instance is absent. -/
theorem claim_C8 (dp ct : String) (s : Sys) (hdp : s.dirs.contains dp = true) :
    (ct ≠ "prepare" → ct ≠ "show" →
      ∃ m, (get_comm_w_shared dp ct s).1 =
        Outcome.err (ZkProofError.InvalidInput m)) ∧
    (∀ i, load_instance PREPARE_INSTANCE s = some i →
      (get_comm_w_shared dp "prepare" s).1 =
        Outcome.ok (commHex i.comm_W_shared)) ∧
    (load_instance PREPARE_INSTANCE s = none →
      ∃ m, (get_comm_w_shared dp "prepare" s).1 =
        Outcome.err (ZkProofError.FileNotFound m)) ∧
    (∀ i, load_instance SHOW_INSTANCE s = some i →
      (get_comm_w_shared dp "show" s).1 =
        Outcome.ok (commHex i.comm_W_shared)) ∧
    (load_instance SHOW_INSTANCE s = none →
      ∃ m, (get_comm_w_shared dp "show" s).1 =
        Outcome.err (ZkProofError.FileNotFound m)) := by
  refine ⟨?_, ?_, ?_, ?_, ?_⟩
  · intro h1 h2
    unfold get_comm_w_shared with_working_dir
    rw [if_pos hdp]
    unfold getCommBody
    rw [if_neg h1, if_neg h2]
    exact ⟨_, rfl⟩
  · intro i hi
    unfold get_comm_w_shared with_working_dir
    rw [if_pos hdp]
    unfold getCommBody
    rw [if_pos rfl]
    have hi2 : load_instance PREPARE_INSTANCE { s with cwd := dp } = some i := hi
    unfold extract_comm_w_shared
    rw [hi2]
  · intro hi
    unfold get_comm_w_shared with_working_dir
    rw [if_pos hdp]
    unfold getCommBody
    rw [if_pos rfl]
    have hi2 : load_instance PREPARE_INSTANCE { s with cwd := dp } = none := hi
    unfold extract_comm_w_shared
    rw [hi2]
    exact ⟨_, rfl⟩
  · intro i hi
    unfold get_comm_w_shared with_working_dir
    rw [if_pos hdp]
    unfold getCommBody
    rw [if_neg (by decide), if_pos rfl]
    have hi2 : load_instance SHOW_INSTANCE { s with cwd := dp } = some i := hi
    unfold extract_comm_w_shared
    rw [hi2]
  · intro hi
    unfold get_comm_w_shared with_working_dir
    rw [if_pos hdp]
    unfold getCommBody
    rw [if_neg (by decide), if_pos rfl]
    have hi2 : load_instance SHOW_INSTANCE { s with cwd := dp } = none := hi
    unfold extract_comm_w_shared
    rw [hi2]
    exact ⟨_, rfl⟩

/-- Witness for C8: a rejected selector, a successful read of a persisted
Instance, and a missing-Instance failure. -/
theorem claim_C8_witness :
    (∃ m, (get_comm_w_shared "docs" "bogus" readySys).1 =
      Outcome.err (ZkProofError.InvalidInput m)) ∧
    ((get_comm_w_shared "docs" "prepare" readySys).1 =
      Outcome.ok (commHex (Instance.mk [] (commit [5] [9])).comm_W_shared)) ∧
    (∃ m, (get_comm_w_shared "docs" "prepare" noPkSys).1 =
      Outcome.err (ZkProofError.FileNotFound m)) :=
  ⟨(claim_C8 "docs" "bogus" readySys (by decide)).1 (by decide) (by decide),
   (claim_C8 "docs" "x" readySys (by decide)).2.1
     (Instance.mk [] (commit [5] [9])) (by decide),
   (claim_C8 "docs" "x" noPkSys (by decide)).2.2.1 (by decide)⟩

/-- Claim C9: the exported blind generation records a backend invocation
with exactly `NUM_SHARED = 1` commitment row and persists a one-row
blind set, and a benchmark run only ever invokes blind generation with
that same single row count. -/
theorem claim_C9 :
    (∀ dp s, s.dirs.contains dp = true →
      ((generate_shared_blinds dp s).2).events =
        s.events ++ [BEv.genBlinds NUM_SHARED] ∧
      ∃ bs, load_shared_blinds SHARED_BLINDS ((generate_shared_blinds dp s).2) =
          some bs ∧ bs.length = NUM_SHARED) ∧
    (∀ dp ip s n, BEv.genBlinds n ∈ ((run_complete_benchmark dp ip s).2).events →
      BEv.genBlinds n ∈ s.events ∨ n = NUM_SHARED) ∧
    NUM_SHARED = 1 := by
  refine ⟨?_, ?_, rfl⟩
  · intro dp s hdp
    constructor
    · unfold generate_shared_blinds with_working_dir genBlindsBody
      rw [if_pos hdp]
      simp [restoreDir_events, gen_shared_blinds, logEv, saveArt, NUM_SHARED]
    · unfold generate_shared_blinds with_working_dir genBlindsBody
      rw [if_pos hdp]
      simp [restoreDir_store, gen_shared_blinds, logEv, saveArt, NUM_SHARED,
        load_shared_blinds, assocLookup, List.range_succ]
  · intro dp ip s n hmem
    obtain ⟨k, hk⟩ := run_bench_trace dp ip s
    rw [hk] at hmem
    rcases List.mem_append.1 hmem with h | h
    · exact Or.inl h
    · right
      have h2 : BEv.genBlinds n ∈ canonical9 := List.take_subset k canonical9 h
      simp [canonical9] at h2
      exact h2

/-- Witness for C9: a concrete blind generation on `demoSys` recording a
single-row invocation and persisting a one-row set. -/
theorem claim_C9_witness :
    ((generate_shared_blinds "docs" demoSys).2).events =
      demoSys.events ++ [BEv.genBlinds NUM_SHARED] ∧
    ∃ bs, load_shared_blinds SHARED_BLINDS
        ((generate_shared_blinds "docs" demoSys).2) = some bs ∧
      bs.length = NUM_SHARED :=
  claim_C9.1 "docs" demoSys (by decide)

/-- Claim C10: every successful prove or reblind call reports
`prep_ms = 0` and `prove_ms = total_ms`. -/
theorem claim_C10 (dp : String) (ip : Option String) (s : Sys) (r : ProofResult) :
    ((prove_prepare dp ip s).1 = Outcome.ok r →
      r.prep_ms = 0 ∧ r.prove_ms = r.total_ms) ∧
    ((prove_show dp ip s).1 = Outcome.ok r →
      r.prep_ms = 0 ∧ r.prove_ms = r.total_ms) ∧
    ((reblind_prepare dp s).1 = Outcome.ok r →
      r.prep_ms = 0 ∧ r.prove_ms = r.total_ms) ∧
    ((reblind_show dp s).1 = Outcome.ok r →
      r.prep_ms = 0 ∧ r.prove_ms = r.total_ms) := by
  refine ⟨?_, ?_, ?_, ?_⟩ <;> intro h
  · unfold prove_prepare at h
    have hb := wwd_ok_of_outcome _ _ _ _ h
    rcases hq : proveOpBody (PrepareCircuit.new ip) PREPARE_PROVING_KEY
        PREPARE_INSTANCE PREPARE_WITNESS PREPARE_PROOF { s with cwd := dp }
      with ⟨o, s4⟩
    rw [hq] at hb
    simp at hb
    subst hb
    exact proveOpBody_ok_timing _ _ _ _ _ _ _ _ hq
  · unfold prove_show at h
    have hb := wwd_ok_of_outcome _ _ _ _ h
    rcases hq : proveOpBody (ShowCircuit.new ip) SHOW_PROVING_KEY
        SHOW_INSTANCE SHOW_WITNESS SHOW_PROOF { s with cwd := dp }
      with ⟨o, s4⟩
    rw [hq] at hb
    simp at hb
    subst hb
    exact proveOpBody_ok_timing _ _ _ _ _ _ _ _ hq
  · unfold reblind_prepare at h
    have hb := wwd_ok_of_outcome _ _ _ _ h
    rcases hq : reblindOpBody (PrepareCircuit.new none) PREPARE_PROVING_KEY
        PREPARE_INSTANCE PREPARE_WITNESS PREPARE_PROOF { s with cwd := dp }
      with ⟨o, s4⟩
    rw [hq] at hb
    simp at hb
    subst hb
    exact reblindOpBody_ok_timing _ _ _ _ _ _ _ _ hq
  · unfold reblind_show at h
    have hb := wwd_ok_of_outcome _ _ _ _ h
    rcases hq : reblindOpBody (ShowCircuit.new none) SHOW_PROVING_KEY
        SHOW_INSTANCE SHOW_WITNESS SHOW_PROOF { s with cwd := dp }
      with ⟨o, s4⟩
    rw [hq] at hb
    simp at hb
    subst hb
    exact reblindOpBody_ok_timing _ _ _ _ _ _ _ _ hq

/-- Witness for C10: the four operations run successfully on `readySys`
and each reported record has `prep_ms = 0` and `prove_ms = total_ms`. -/
theorem claim_C10_witness :
    (c10r1.prep_ms = 0 ∧ c10r1.prove_ms = c10r1.total_ms) ∧
    (c10r2.prep_ms = 0 ∧ c10r2.prove_ms = c10r2.total_ms) ∧
    (c10r3.prep_ms = 0 ∧ c10r3.prove_ms = c10r3.total_ms) ∧
    (c10r4.prep_ms = 0 ∧ c10r4.prove_ms = c10r4.total_ms) :=
  ⟨(claim_C10 "docs" none readySys c10r1).1 (by decide),
   (claim_C10 "docs" none readySys c10r2).2.1 (by decide),
   (claim_C10 "docs" none readySys c10r3).2.2.1 (by decide),
   (claim_C10 "docs" none readySys c10r4).2.2.2 (by decide)⟩

end S2P
